import Mathlib

/-!
Shallow embedding of the financial ratio computation in FinDash.py.

The engine fetches a raw per-company record (the yfinance `info` dict,
annual income statement and balance sheet), derives a row of metrics
(`fetch_company_data`), and formats each metric for display
(`format_value`, driven by `format_map`).

Numeric provider values are modelled as exact rationals.  A metric cell
is `Val.num q`, the positive-infinity sentinel `Val.inf` (the code's
`float('inf')`), or `Val.na` (the code's `np.nan`, displayed "N/A").
The code's fifth-root `(x)**(1/5)` is a transcendental floating-point
operation; it is abstracted as an explicit function parameter `fpow5`,
so that theorems can state both the formula and the fact that the
operation is never applied on the guarded branches.

The `st.info` diagnostics the script emits (and captures into a list via
the temporary `st.info` swap) are modelled as a list of `Msg` tags, one
constructor per distinct message site in the source.
-/

namespace FinDash

/-- A metric cell: a number, the `float('inf')` sentinel, or `np.nan`. -/
inductive Val where
  | num (q : ℚ)
  | inf
  | na
deriving DecidableEq

/-- The fields of the yfinance `info` dict that the script reads (plus the
price / EPS / growth-estimate fields the provider supplies but the script
never consults).  `hasRegularMarketPrice` models the
`'regularMarketPrice' in info` key-presence test. -/
structure Info where
  longName : Option String
  hasRegularMarketPrice : Bool
  industry : Option String
  marketCap : Option ℚ
  trailingPE : Option ℚ
  currentPrice : Option ℚ
  trailingEps : Option ℚ
  fiveYearGrowthEstimate : Option ℚ

/-- The annual income statement: the `'Total Revenue'` row when present,
most recent fiscal year first. -/
structure Financials where
  totalRevenue : Option (List ℚ)

/-- The annual balance sheet rows the script reads; `some v` means the row
is present and non-empty with first (latest) entry `v`. -/
structure BalanceSheet where
  totalStockholderEquity : Option ℚ
  longTermDebt : Option ℚ
  currentDebt : Option ℚ
  shortTermDebt : Option ℚ

/-- One raw per-ticker record as received from the provider. -/
structure RawRecord where
  ticker : String
  info : Info
  financials : Financials
  balance_sheet : BalanceSheet

/-- One tag per distinct `st.info` diagnostic site in `fetch_company_data`.
`noDebtComponents` is the message on line 96 of the source; its guard
(`long_term_debt is not None and short_term_debt is not None`) always
succeeds because both extractions default to `0`, so it is never emitted. -/
inductive Msg where
  | noTotalRevenue
  | notEnough1Yr
  | notEnough5Yr
  | zeroOrNegBase5Yr
  | noEquity
  | noDebtComponents
deriving DecidableEq

/-- The `data` dict assembled by `fetch_company_data`. -/
structure CompanyData where
  company : String
  industry : String
  marketCapB : Val
  salesGrowth1Yr : Val
  salesGrowth5Yr : Val
  debtToEquity : Val
  pegRatio : Val
  trailingPE : Val
deriving DecidableEq

/-- Python truthiness of `info.get(key)` for a numeric field: present and
nonzero. -/
def truthyQ : Option ℚ → Bool
  | some v => v != 0
  | none => false

/-- Python truthiness of `info.get(key)` for a string field: present and
non-empty. -/
def truthyS : Option String → Bool
  | some s => s != ""
  | none => false

/-- The validity test on lines 31-33: `longName` truthy and
`'regularMarketPrice' in info` (an empty `info` dict has neither). -/
def valid_info (i : Info) : Bool :=
  truthyS i.longName && i.hasRegularMarketPrice

/-- 1-Year Sales Growth, lines 53-56: requires at least two entries and a
nonzero prior-year revenue; otherwise the cell stays NaN and the single
"not enough annual revenue data (at least 2 years)" diagnostic is emitted
(the source does not distinguish a short series from a zero base here). -/
def growth1 (revenues : List ℚ) : Val × List Msg :=
  if 2 ≤ revenues.length ∧ revenues.getD 1 0 ≠ 0 then
    (Val.num ((revenues.getD 0 0 - revenues.getD 1 0) / revenues.getD 1 0), [])
  else
    (Val.na, [Msg.notEnough1Yr])

/-- 5-Year Sales Growth (CAGR), lines 60-72.  `revenues.getD 0 0` is the
source's `latest_revenue`, `revenues.getD 4 0` its `revenue_5_years_ago`;
`fpow5 x` stands for the source's `x**(1/5)` and is only applied on the
positive-base branch. -/
def growth5 (fpow5 : ℚ → ℚ) (revenues : List ℚ) : Val × List Msg :=
  if 5 ≤ revenues.length then
    if 0 < revenues.getD 4 0 then
      (Val.num (fpow5 (revenues.getD 0 0 / revenues.getD 4 0) - 1), [])
    else if 0 < revenues.getD 0 0 ∧ revenues.getD 4 0 = 0 then (Val.inf, [])
    else (Val.na, [Msg.zeroOrNegBase5Yr])
  else
    (Val.na, [Msg.notEnough5Yr])

/-- Lines 49-74: both growth metrics, guarded by the presence of the
`'Total Revenue'` row. -/
def growths (fpow5 : ℚ → ℚ) (fin : Financials) : (Val × Val) × List Msg :=
  match fin.totalRevenue with
  | some revenues =>
    let g1 := growth1 revenues
    let g5 := growth5 fpow5 revenues
    ((g1.1, g5.1), g1.2 ++ g5.2)
  | none => ((Val.na, Val.na), [Msg.noTotalRevenue])

/-- Lines 88-94: long-term and short-term debt each default to `0` when
their row is absent (short-term prefers `'Current Debt'`, falling back to
`'Short Term Debt'`).  The `is not None` guard on line 93 therefore always
succeeds and the sum is always produced — including `0` when every
component row is absent. -/
def normalized_total_debt (bs : BalanceSheet) : Option ℚ :=
  let long_term_debt : ℚ := (bs.longTermDebt).getD 0
  let short_term_debt : ℚ :=
    match bs.currentDebt with
    | some v => v
    | none => (bs.shortTermDebt).getD 0
  some (long_term_debt + short_term_debt)

/-- Lines 82-105: Debt to Equity.  Equity comes from the
`'Total Stockholder Equity'` row (diagnostic when absent); division only
when equity is nonzero, `inf` when equity is exactly zero, NaN when either
component is missing (debt never is, see `normalized_total_debt`). -/
def debt_to_equity (bs : BalanceSheet) : Val × List Msg :=
  let eqMsgs : List Msg :=
    if bs.totalStockholderEquity.isSome then [] else [Msg.noEquity]
  match normalized_total_debt bs, bs.totalStockholderEquity with
  | some d, some e => ((if e ≠ 0 then Val.num (d / e) else Val.inf), eqMsgs)
  | _, _ => (Val.na, eqMsgs)

/-- The `data` dict built on the success path of `fetch_company_data`:
market cap and trailing P/E are copied only when truthy (lines 41-46),
PEG stays at its initial NaN (line 21, never recomputed), growth and
leverage come from their calculators. -/
def build_data (fpow5 : ℚ → ℚ) (r : RawRecord) : CompanyData :=
  { company := (r.info.longName).getD r.ticker.toUpper
    industry := (r.info.industry).getD "N/A"
    marketCapB :=
      if truthyQ r.info.marketCap then
        Val.num ((r.info.marketCap).getD 0 / 1000000000)
      else Val.na
    salesGrowth1Yr := ((growths fpow5 r.financials).1).1
    salesGrowth5Yr := ((growths fpow5 r.financials).1).2
    debtToEquity := (debt_to_equity r.balance_sheet).1
    pegRatio := Val.na
    trailingPE :=
      if truthyQ r.info.trailingPE then
        Val.num ((r.info.trailingPE).getD 0)
      else Val.na }

/-- The `st.info` diagnostics emitted on the success path, in source
order: revenue diagnostics first, then the equity diagnostic. -/
def build_msgs (fpow5 : ℚ → ℚ) (r : RawRecord) : List Msg :=
  (growths fpow5 r.financials).2 ++ (debt_to_equity r.balance_sheet).2

/-- `fetch_company_data` (lines 10-111): `none` when the ticker fails the
validity test (or, in the source, when an exception is caught — nothing
in this pure model raises), otherwise the assembled `data` dict together
with the captured diagnostics. -/
def fetch_company_data (fpow5 : ℚ → ℚ) (r : RawRecord) :
    Option CompanyData × List Msg :=
  if valid_info r.info then
    (some (build_data fpow5 r), build_msgs fpow5 r)
  else
    (none, [])

/-- Two-digit zero-padded rendering of a remainder below 100. -/
def pad2 (n : ℕ) : String :=
  (if n < 10 then "0" else "") ++ toString n

/-- Fixed-point rendering of the integer `n` of hundredths as a decimal
with exactly two places after the point. -/
def two_dec_string (n : ℤ) : String :=
  (if n < 0 then "-" else "")
    ++ toString (n.natAbs / 100) ++ "." ++ pad2 (n.natAbs % 100)

/-- Python's `f"{q:.2f}"` over exact rationals: round to hundredths and
render with two decimal places.  (Python rounds the underlying binary
double half-to-even; over exact rationals we round half-up — the claims
exercise no tie.) -/
def fmtFixed2 (q : ℚ) : String :=
  two_dec_string (round (q * 100))

/-- Insert a comma after every third digit, digits given least
significant first. -/
def group3 : List Char → List Char
  | a :: b :: c :: d :: rest => a :: b :: c :: ',' :: group3 (d :: rest)
  | l => l

/-- Thousands-separated rendering of a natural number. -/
def groupThousands (n : ℕ) : String :=
  String.mk (group3 (Nat.toDigits 10 n).reverse).reverse

/-- Python's `f"{q:,.0f}"`: round to an integer and render with thousands
separators. -/
def fmtThousands0 (q : ℚ) : String :=
  let n : ℤ := round q
  (if n < 0 then "-" else "") ++ groupThousands n.natAbs

/-- `format_value` (lines 113-127).  `np.nan` maps to "N/A" for every
metric type; `float('inf')` is rendered "Inf" only on the `"ratio"`
branch — the `"percent"` branch formats it as Python does, `"inf%"`, and
`"currency_billion"` as `"$infB"`. -/
def format_value (value : Val) (metric_type : String) : String :=
  match value with
  | .na => "N/A"
  | .inf =>
    match metric_type with
    | "percent" => "inf%"
    | "currency_billion" => "$infB"
    | "ratio" => "Inf"
    | _ => "inf"
  | .num v =>
    match metric_type with
    | "percent" => fmtFixed2 (v * 100) ++ "%"
    | "currency_billion" => "$" ++ fmtThousands0 v ++ "B"
    | "ratio" => fmtFixed2 v
    | _ => toString v

/-- `format_map` (lines 216-223): which format each column uses. -/
def format_map : List (String × String) :=
  [("1Yr Sales Growth", "percent"),
   ("5Yr Sales Growth", "percent"),
   ("Debt to Equity", "ratio"),
   ("PEG Ratio", "ratio"),
   ("Trailing P/E", "ratio"),
   ("Market Cap (B)", "currency_billion")]

/-- Look up a column's format type in `format_map`. -/
def fmt_type (col : String) : Option String :=
  (format_map.find? (fun p => p.1 == col)).map (·.2)

/-- The per-ticker fetch loop (lines 171-176): successful records are
appended to the comparison list in order, failed tickers to the invalid
list in order. -/
def process_tickers (fpow5 : ℚ → ℚ) : List RawRecord → List CompanyData × List String
  | [] => ([], [])
  | r :: rest =>
    let tail := process_tickers fpow5 rest
    match (fetch_company_data fpow5 r).1 with
    | some d => (d :: tail.1, tail.2)
    | none => (tail.1, r.ticker :: tail.2)

/-! Concrete provider records used to instantiate the theorems. -/

/-- A minimal valid `info` dict: a truthy `longName` and the
`regularMarketPrice` key present, every optional field absent. -/
def infoBase : Info :=
  { longName := some "Test Co"
    hasRegularMarketPrice := true
    industry := none
    marketCap := none
    trailingPE := none
    currentPrice := none
    trailingEps := none
    fiveYearGrowthEstimate := none }

/-- A balance sheet with every row absent. -/
def bsEmpty : BalanceSheet :=
  { totalStockholderEquity := none
    longTermDebt := none
    currentDebt := none
    shortTermDebt := none }

/-- An income statement without a Total Revenue row. -/
def finNone : Financials := { totalRevenue := none }

/-- Price 150, EPS 5 and a growth estimate of 15 percent, all present and
positive; no provider-supplied trailing P/E. -/
def rPeg : RawRecord :=
  { ticker := "PEGX"
    info := { infoBase with
      currentPrice := some 150, trailingEps := some 5,
      fiveYearGrowthEstimate := some 15 }
    financials := finNone
    balance_sheet := bsEmpty }

/-- Price 150 and EPS 5 present, provider trailing P/E absent. -/
def rTrail : RawRecord :=
  { ticker := "TRLX"
    info := { infoBase with currentPrice := some 150, trailingEps := some 5 }
    financials := finNone
    balance_sheet := bsEmpty }

/-- Equity 100 on the balance sheet; no long-term, current or short-term
debt row at all. -/
def rDebt : RawRecord :=
  { ticker := "DBTX"
    info := infoBase
    financials := finNone
    balance_sheet := { bsEmpty with totalStockholderEquity := some 100 } }

/-- Five years of revenue with a zero base and a positive latest value. -/
def rInfGrow : RawRecord :=
  { ticker := "INFX"
    info := infoBase
    financials := { totalRevenue := some [100, 1, 1, 1, 0] }
    balance_sheet := { bsEmpty with totalStockholderEquity := some 1 } }

/-- Scenario B revenue series: latest 200, base 100 five years prior. -/
def rCagr : RawRecord :=
  { ticker := "CGRX"
    info := infoBase
    financials := { totalRevenue := some [200, 190, 180, 170, 100] }
    balance_sheet := { bsEmpty with totalStockholderEquity := some 1 } }

/-- Two years of revenue with a zero prior-year base. -/
def rOneYrZero : RawRecord :=
  { ticker := "ZBSX"
    info := infoBase
    financials := { totalRevenue := some [100, 0] }
    balance_sheet := { bsEmpty with totalStockholderEquity := some 1 } }

/-- Scenario A revenue series: 110 after 100. -/
def rOneYrOk : RawRecord :=
  { ticker := "GRWX"
    info := infoBase
    financials := { totalRevenue := some [110, 100] }
    balance_sheet := { bsEmpty with totalStockholderEquity := some 1 } }

/-- Long-term debt 50 against negative equity -100. -/
def rNegEq : RawRecord :=
  { ticker := "NEGX"
    info := infoBase
    financials := finNone
    balance_sheet := { bsEmpty with
      totalStockholderEquity := some (-100), longTermDebt := some 50 } }

/-- Provider record whose trailing P/E and market cap are present but
exactly zero. -/
def rZeroFields : RawRecord :=
  { ticker := "ZEROX"
    info := { infoBase with trailingPE := some 0, marketCap := some 0 }
    financials := finNone
    balance_sheet := bsEmpty }

/-! Helper lemmas about the shape of a successful fetch. -/

/-- A valid record fetches to its assembled data dict and diagnostics. -/
theorem fetch_eval (f : ℚ → ℚ) (r : RawRecord) (h : valid_info r.info = true) :
    fetch_company_data f r = (some (build_data f r), build_msgs f r) := by
  simp [fetch_company_data, h]

/-- A successful fetch implies the record was valid and the returned dict
is exactly the assembled one. -/
theorem fetch_some_elim (f : ℚ → ℚ) (r : RawRecord) (d : CompanyData)
    (h : (fetch_company_data f r).1 = some d) :
    valid_info r.info = true ∧ d = build_data f r := by
  by_cases hv : valid_info r.info = true
  · rw [fetch_eval f r hv] at h
    exact ⟨hv, (Option.some.inj h).symm⟩
  · unfold fetch_company_data at h
    rw [if_neg hv] at h
    simp at h

/-- With a Total Revenue row the growth pair comes from the two
calculators on that series. -/
theorem growths_rev (f : ℚ → ℚ) (fin : Financials) (revs : List ℚ)
    (h : fin.totalRevenue = some revs) :
    growths f fin =
      (((growth1 revs).1, (growth5 f revs).1), (growth1 revs).2 ++ (growth5 f revs).2) := by
  unfold growths
  rw [h]

/-- Success branch of the 1-year growth calculator. -/
theorem growth1_num (revs : List ℚ) (h : 2 ≤ revs.length ∧ revs.getD 1 0 ≠ 0) :
    growth1 revs = (Val.num ((revs.getD 0 0 - revs.getD 1 0) / revs.getD 1 0), []) := by
  unfold growth1
  rw [if_pos h]

/-- Failure branch of the 1-year growth calculator: both a short series
and a zero base land in the same else branch with the same diagnostic. -/
theorem growth1_fail (revs : List ℚ) (h : revs.length < 2 ∨ revs.getD 1 0 = 0) :
    growth1 revs = (Val.na, [Msg.notEnough1Yr]) := by
  unfold growth1
  rw [if_neg]
  rintro ⟨h2, hz⟩
  rcases h with hlen | hzero
  · omega
  · exact hz hzero

/-- Positive-base branch of the 5-year CAGR calculator. -/
theorem growth5_pos (f : ℚ → ℚ) (revs : List ℚ) (h5 : 5 ≤ revs.length)
    (hb : 0 < revs.getD 4 0) :
    growth5 f revs = (Val.num (f (revs.getD 0 0 / revs.getD 4 0) - 1), []) := by
  unfold growth5
  rw [if_pos h5, if_pos hb]

/-- Zero-base, positive-latest branch of the 5-year CAGR calculator. -/
theorem growth5_zero_base_pos (f : ℚ → ℚ) (revs : List ℚ) (h5 : 5 ≤ revs.length)
    (hb : revs.getD 4 0 = 0) (hl : 0 < revs.getD 0 0) :
    growth5 f revs = (Val.inf, []) := by
  unfold growth5
  rw [if_pos h5, if_neg (by rw [hb]; exact lt_irrefl 0), if_pos ⟨hl, hb⟩]

/-- Negative-or-degenerate-base branch of the 5-year CAGR calculator. -/
theorem growth5_bad_base (f : ℚ → ℚ) (revs : List ℚ) (h5 : 5 ≤ revs.length)
    (hb : revs.getD 4 0 < 0 ∨ (revs.getD 4 0 = 0 ∧ revs.getD 0 0 ≤ 0)) :
    growth5 f revs = (Val.na, [Msg.zeroOrNegBase5Yr]) := by
  unfold growth5
  have hnp : ¬ 0 < revs.getD 4 0 := by
    rcases hb with h1 | ⟨h1, _⟩
    · exact not_lt.mpr h1.le
    · exact not_lt.mpr h1.le
  rw [if_pos h5, if_neg hnp, if_neg]
  rintro ⟨hl, hz⟩
  rcases hb with h1 | ⟨_, h2⟩
  · rw [hz] at h1
    exact lt_irrefl 0 h1
  · exact absurd hl (not_lt.mpr h2)

/-- The whole fetch result depends on the power operation only through
the 5-year growth calculator. -/
theorem fetch_congr (f g : ℚ → ℚ) (r : RawRecord)
    (h : growths f r.financials = growths g r.financials) :
    fetch_company_data f r = fetch_company_data g r := by
  unfold fetch_company_data build_data build_msgs
  rw [h]

/-- Evaluation of the leverage calculator when the equity row is present:
the debt side is always available (see `normalized_total_debt`), so the
result is the guarded division, with the infinity sentinel at zero
equity. -/
theorem debt_to_equity_eval (bs : BalanceSheet) (e : ℚ)
    (he : bs.totalStockholderEquity = some e) :
    (debt_to_equity bs).1 =
      (if e ≠ 0 then Val.num (((normalized_total_debt bs).getD 0) / e) else Val.inf) := by
  unfold debt_to_equity
  rw [he]
  rfl

/-! Claim theorems. -/

/-- C1 (counterexample): at a record whose price (150), EPS (5) and
growth-rate-percent (15) are all present and positive, the PEG cell is
NaN, not the claimed numeric value (price / eps) / growthRatePercent = 2. -/
theorem peg_not_computed_counterexample :
    ((fetch_company_data (fun q => q) rPeg).1).map CompanyData.pegRatio = some Val.na ∧
    some Val.na ≠ some (Val.num ((150 / 5) / 15)) := by
  constructor
  · rw [fetch_eval _ _ (by decide)]
    rfl
  · intro h
    exact Val.noConfusion (Option.some.inj h)

/-- C1 (amended): the engine never computes PEG — for every successfully
fetched record the PEG cell is the missing value NaN, displayed "N/A",
regardless of the price, EPS and growth-estimate inputs. -/
theorem peg_always_na (f : ℚ → ℚ) (r : RawRecord) (d : CompanyData)
    (h : (fetch_company_data f r).1 = some d) :
    d.pegRatio = Val.na ∧ format_value d.pegRatio "ratio" = "N/A" := by
  obtain ⟨hv, hd⟩ := fetch_some_elim f r d h
  subst hd
  exact ⟨rfl, rfl⟩

/-- C1 (witness): the amended theorem applied to the concrete record with
positive price, EPS and growth estimate. -/
theorem peg_always_na_witness :
    ∃ d, (fetch_company_data (fun q => q) rPeg).1 = some d ∧
      d.pegRatio = Val.na ∧ format_value d.pegRatio "ratio" = "N/A" := by
  refine ⟨build_data (fun q => q) rPeg, ?_, ?_⟩
  · rw [fetch_eval _ _ (by decide)]
  · exact peg_always_na (fun q => q) rPeg _ (by rw [fetch_eval _ _ (by decide)])

/-- C2 (counterexample): at a record with no provider trailing P/E but
price 150 and EPS 5 present, the trailing P/E cell is NaN (displayed
"N/A"), not the claimed fallback price / eps = 30. -/
theorem trailingPE_no_fallback_counterexample :
    ((fetch_company_data (fun q => q) rTrail).1).map CompanyData.trailingPE = some Val.na ∧
    some Val.na ≠ some (Val.num (150 / 5)) ∧
    format_value Val.na "ratio" = "N/A" := by
  refine ⟨?_, ?_, rfl⟩
  · rw [fetch_eval _ _ (by decide)]
    rfl
  · intro h
    exact Val.noConfusion (Option.some.inj h)

/-- C2 (amended): trailing P/E is the provider-supplied value exactly
when that field is truthy (present and nonzero); otherwise the cell is
the missing value — the engine computes no price / eps fallback. -/
theorem trailingPE_provider_only (f : ℚ → ℚ) (r : RawRecord) (d : CompanyData)
    (h : (fetch_company_data f r).1 = some d) :
    d.trailingPE =
      (if truthyQ r.info.trailingPE then Val.num ((r.info.trailingPE).getD 0) else Val.na) := by
  obtain ⟨hv, hd⟩ := fetch_some_elim f r d h
  subst hd
  rfl

/-- C2 (witness): at the record with price and EPS present but no
provider trailing P/E, the cell is NaN. -/
theorem trailingPE_provider_only_witness :
    ∃ d, (fetch_company_data (fun q => q) rTrail).1 = some d ∧ d.trailingPE = Val.na := by
  refine ⟨build_data (fun q => q) rTrail, by rw [fetch_eval _ _ (by decide)], ?_⟩
  have h := trailingPE_provider_only (fun q => q) rTrail _
    (by rw [fetch_eval _ _ (by decide)])
  exact h.trans (by rfl)

/-- C3 (code behaviour at the failing input): with no long-term, current
or short-term debt row at all and equity 100, the code computes a total
debt of 0 and a numeric debt-to-equity of 0 (displayed "0.00") instead of
the claimed FieldUnavailable; `normalized_total_debt` always returns a
value, so the data-unavailable branch on line 96 of the source is dead. -/
theorem debt_defaults_to_zero_when_absent :
    (∃ d, (fetch_company_data (fun q => q) rDebt).1 = some d ∧
      d.debtToEquity = Val.num 0 ∧
      format_value d.debtToEquity "ratio" = "0.00") ∧
    Msg.noDebtComponents ∉ (fetch_company_data (fun q => q) rDebt).2 ∧
    ∀ bs : BalanceSheet, (normalized_total_debt bs).isSome = true := by
  have hde : (build_data (fun q => q) rDebt).debtToEquity = Val.num 0 := by
    norm_num [build_data, debt_to_equity, normalized_total_debt, truthyQ,
      rDebt, infoBase, bsEmpty, finNone]
  refine ⟨⟨build_data (fun q => q) rDebt, by rw [fetch_eval _ _ (by decide)], hde, ?_⟩,
    ?_, fun bs => rfl⟩
  · rw [hde]
    norm_num [format_value, fmtFixed2, two_dec_string, pad2, round_eq]
    decide
  · rw [fetch_eval _ _ (by decide)]
    have hm : build_msgs (fun q => q) rDebt = [Msg.noTotalRevenue] := by
      norm_num [build_msgs, growths, growth1, growth5, debt_to_equity,
        normalized_total_debt, rDebt, infoBase, bsEmpty, finNone]
    show Msg.noDebtComponents ∉ build_msgs (fun q => q) rDebt
    rw [hm]
    decide

/-- C4 (counterexample): with revenue series [100, 1, 1, 1, 0] the
5-year growth metric is indeed the infinity sentinel, but the 5Yr Sales
Growth column is percent-formatted, so the displayed cell is "inf%", not
the claimed "Inf". -/
theorem fiveYr_inf_percent_counterexample :
    (∃ d, (fetch_company_data (fun q => q) rInfGrow).1 = some d ∧
      d.salesGrowth5Yr = Val.inf ∧
      format_value d.salesGrowth5Yr ((fmt_type "5Yr Sales Growth").getD "") = "inf%") ∧
    "inf%" ≠ "Inf" := by
  have hg : (build_data (fun q => q) rInfGrow).salesGrowth5Yr = Val.inf := by
    norm_num [build_data, growths, growth1, growth5, rInfGrow, infoBase, bsEmpty, finNone]
  refine ⟨⟨build_data (fun q => q) rInfGrow, by rw [fetch_eval _ _ (by decide)], hg, ?_⟩,
    by decide⟩
  rw [hg]
  rfl

/-- C4 (amended): for a revenue series of length at least 5 with a zero
base and positive latest value, the 5-year growth metric is the
positive-infinity sentinel, and since the 5Yr Sales Growth column is
percent-typed, the formatter renders the cell as "inf%" ("Inf" is
produced only for ratio-typed metrics). -/
theorem fiveYr_zero_base_inf_cell (f : ℚ → ℚ) (r : RawRecord) (d : CompanyData)
    (revs : List ℚ)
    (hd : (fetch_company_data f r).1 = some d)
    (hrev : r.financials.totalRevenue = some revs)
    (h5 : 5 ≤ revs.length) (hb : revs.getD 4 0 = 0) (hl : 0 < revs.getD 0 0) :
    d.salesGrowth5Yr = Val.inf ∧
    fmt_type "5Yr Sales Growth" = some "percent" ∧
    format_value d.salesGrowth5Yr "percent" = "inf%" := by
  obtain ⟨hv, hde⟩ := fetch_some_elim f r d hd
  subst hde
  have hfield : (build_data f r).salesGrowth5Yr = (growth5 f revs).1 := by
    show ((growths f r.financials).1).2 = _
    rw [growths_rev f r.financials revs hrev]
  rw [growth5_zero_base_pos f revs h5 hb hl] at hfield
  refine ⟨hfield, rfl, ?_⟩
  rw [hfield]
  rfl

/-- C4 (witness): the amended theorem at the concrete zero-base series. -/
theorem fiveYr_zero_base_inf_cell_witness :
    ∃ d, (fetch_company_data (fun q => q) rInfGrow).1 = some d ∧
      (d.salesGrowth5Yr = Val.inf ∧
       fmt_type "5Yr Sales Growth" = some "percent" ∧
       format_value d.salesGrowth5Yr "percent" = "inf%") := by
  refine ⟨build_data (fun q => q) rInfGrow, by rw [fetch_eval _ _ (by decide)], ?_⟩
  exact fiveYr_zero_base_inf_cell (fun q => q) rInfGrow _ [100, 1, 1, 1, 0]
    (by rw [fetch_eval _ _ (by decide)]) rfl (by norm_num) (by norm_num) (by norm_num)

/-- C5: for a revenue series of length at least 5, a positive base yields
exactly the CAGR formula (latest / base)^(1/5) - 1 — stated over the
abstract power operation the code applies — while a negative base, or a
zero base with non-positive latest value, yields the missing value with
the zero-or-negative-base diagnostic, and the fractional power is never
evaluated: the whole fetch result is independent of the power function. -/
theorem fiveYr_cagr_formula_and_guard (f : ℚ → ℚ) (r : RawRecord) (d : CompanyData)
    (revs : List ℚ)
    (hd : (fetch_company_data f r).1 = some d)
    (hrev : r.financials.totalRevenue = some revs)
    (h5 : 5 ≤ revs.length) :
    (0 < revs.getD 4 0 →
      d.salesGrowth5Yr = Val.num (f (revs.getD 0 0 / revs.getD 4 0) - 1)) ∧
    (revs.getD 4 0 < 0 ∨ (revs.getD 4 0 = 0 ∧ revs.getD 0 0 ≤ 0) →
      d.salesGrowth5Yr = Val.na ∧
      Msg.zeroOrNegBase5Yr ∈ (fetch_company_data f r).2 ∧
      ∀ g : ℚ → ℚ, fetch_company_data g r = fetch_company_data f r) := by
  obtain ⟨hv, hde⟩ := fetch_some_elim f r d hd
  subst hde
  have hfield : (build_data f r).salesGrowth5Yr = (growth5 f revs).1 := by
    show ((growths f r.financials).1).2 = _
    rw [growths_rev f r.financials revs hrev]
  constructor
  · intro hb
    rw [hfield, growth5_pos f revs h5 hb]
  · intro hb
    have hg5 := growth5_bad_base f revs h5 hb
    refine ⟨by rw [hfield, hg5], ?_, ?_⟩
    · rw [fetch_eval f r hv]
      show Msg.zeroOrNegBase5Yr ∈ build_msgs f r
      unfold build_msgs
      rw [growths_rev f r.financials revs hrev, hg5]
      simp
    · intro g
      apply fetch_congr
      rw [growths_rev g r.financials revs hrev, growths_rev f r.financials revs hrev,
        hg5, growth5_bad_base g revs h5 hb]

/-- C5 (witness): Scenario B — with the series [200, 190, 180, 170, 100]
and base 100 > 0 the metric is the formula value; instantiating the
abstract power with the identity gives (200 / 100) - 1 = 1. -/
theorem fiveYr_cagr_formula_and_guard_witness :
    ∃ d, (fetch_company_data (fun q => q) rCagr).1 = some d ∧
      d.salesGrowth5Yr = Val.num 1 := by
  refine ⟨build_data (fun q => q) rCagr, by rw [fetch_eval _ _ (by decide)], ?_⟩
  have h := (fiveYr_cagr_formula_and_guard (fun q => q) rCagr _ [200, 190, 180, 170, 100]
    (by rw [fetch_eval _ _ (by decide)]) rfl (by norm_num)).1 (by norm_num)
  rw [h]
  norm_num [List.getD]

/-- C6 (counterexample): at revenue series [100, 0] the prior-year base
is zero, yet the code emits the same insufficient-data diagnostic it uses
for a short series — no distinct zero-or-negative-base reason exists for
the 1-year metric (the metric itself is the missing value, not numeric). -/
theorem oneYr_zero_base_same_diagnostic :
    (∃ d, (fetch_company_data (fun q => q) rOneYrZero).1 = some d ∧
      d.salesGrowth1Yr = Val.na) ∧
    (fetch_company_data (fun q => q) rOneYrZero).2 = [Msg.notEnough1Yr, Msg.notEnough5Yr] ∧
    Msg.zeroOrNegBase5Yr ∉ (fetch_company_data (fun q => q) rOneYrZero).2 := by
  have hmsgs : (fetch_company_data (fun q => q) rOneYrZero).2 =
      [Msg.notEnough1Yr, Msg.notEnough5Yr] := by
    rw [fetch_eval _ _ (by decide)]
    norm_num [build_msgs, growths, growth1, growth5, debt_to_equity,
      normalized_total_debt, rOneYrZero, infoBase, bsEmpty, finNone]
  refine ⟨⟨build_data (fun q => q) rOneYrZero, by rw [fetch_eval _ _ (by decide)], ?_⟩,
    hmsgs, ?_⟩
  · norm_num [build_data, growths, growth1, growth5, rOneYrZero, infoBase, bsEmpty, finNone]
  · rw [hmsgs]
    decide

/-- C6 (amended): for a series of length at least 2 with nonzero
prior-year revenue the 1-year metric is the growth formula; for a short
series, and equally for a zero prior-year base, the metric is the missing
value and the code emits the single insufficient-history diagnostic — in
neither failure case is a numeric value produced, but the two failure
causes are not distinguished. -/
theorem oneYr_growth_formula_and_failures (f : ℚ → ℚ) (r : RawRecord) (d : CompanyData)
    (revs : List ℚ)
    (hd : (fetch_company_data f r).1 = some d)
    (hrev : r.financials.totalRevenue = some revs) :
    (2 ≤ revs.length ∧ revs.getD 1 0 ≠ 0 →
      d.salesGrowth1Yr = Val.num ((revs.getD 0 0 - revs.getD 1 0) / revs.getD 1 0)) ∧
    (revs.length < 2 ∨ revs.getD 1 0 = 0 →
      d.salesGrowth1Yr = Val.na ∧ Msg.notEnough1Yr ∈ (fetch_company_data f r).2) := by
  obtain ⟨hv, hde⟩ := fetch_some_elim f r d hd
  subst hde
  have hfield : (build_data f r).salesGrowth1Yr = (growth1 revs).1 := by
    show ((growths f r.financials).1).1 = _
    rw [growths_rev f r.financials revs hrev]
  constructor
  · intro h
    rw [hfield, growth1_num revs h]
  · intro h
    refine ⟨by rw [hfield, growth1_fail revs h], ?_⟩
    rw [fetch_eval f r hv]
    show Msg.notEnough1Yr ∈ build_msgs f r
    unfold build_msgs
    rw [growths_rev f r.financials revs hrev, growth1_fail revs h]
    simp

/-- C6 (witness): Scenario A — revenue [110, 100] gives 1-year growth
(110 - 100) / 100 = 1/10. -/
theorem oneYr_growth_formula_and_failures_witness :
    ∃ d, (fetch_company_data (fun q => q) rOneYrOk).1 = some d ∧
      d.salesGrowth1Yr = Val.num (1 / 10) := by
  refine ⟨build_data (fun q => q) rOneYrOk, by rw [fetch_eval _ _ (by decide)], ?_⟩
  have h := (oneYr_growth_formula_and_failures (fun q => q) rOneYrOk _ [110, 100]
    (by rw [fetch_eval _ _ (by decide)]) rfl).1 ⟨by norm_num, by norm_num⟩
  rw [h]
  norm_num [List.getD]

/-- C7: when the equity row is present (the debt side always is, since
missing components default to zero), zero equity yields the
positive-infinity sentinel — never a missing value — and nonzero equity
yields debt / equity with the sign preserved and passed through
unclamped. -/
theorem debt_to_equity_sign_and_inf (f : ℚ → ℚ) (r : RawRecord) (d : CompanyData)
    (e : ℚ)
    (hd : (fetch_company_data f r).1 = some d)
    (he : r.balance_sheet.totalStockholderEquity = some e) :
    (e = 0 → d.debtToEquity = Val.inf) ∧
    (e ≠ 0 →
      d.debtToEquity = Val.num (((normalized_total_debt r.balance_sheet).getD 0) / e)) := by
  obtain ⟨hv, hde⟩ := fetch_some_elim f r d hd
  subst hde
  have hfield : (build_data f r).debtToEquity = (debt_to_equity r.balance_sheet).1 := rfl
  rw [hfield, debt_to_equity_eval r.balance_sheet e he]
  constructor
  · intro h0
    rw [if_neg (by simp [h0])]
  · intro hne
    rw [if_pos hne]

/-- C7 (witness): debt 50 against negative equity -100 gives the numeric
ratio -1/2, passed through with its sign. -/
theorem debt_to_equity_sign_and_inf_witness :
    ∃ d, (fetch_company_data (fun q => q) rNegEq).1 = some d ∧
      d.debtToEquity = Val.num (-(1 / 2)) := by
  refine ⟨build_data (fun q => q) rNegEq, by rw [fetch_eval _ _ (by decide)], ?_⟩
  have h := (debt_to_equity_sign_and_inf (fun q => q) rNegEq _ (-100)
    (by rw [fetch_eval _ _ (by decide)]) rfl).2 (by norm_num)
  rw [h]
  norm_num [normalized_total_debt, rNegEq, bsEmpty]

/-- C8: the display formatter is a total function — every (value, type)
pair yields exactly one string; any missing value renders "N/A" for every
metric type; 0.08 as a percent renders "8.00%"; a billions value renders
a dollar sign, a thousands-separated integer and a "B"; and a finite
ratio value renders as a two-decimal-place string whose underlying
integer of hundredths is within half a hundredth of the value. -/
theorem format_value_total_and_shapes :
    (∀ t : String, format_value Val.na t = "N/A") ∧
    format_value (Val.num (8 / 100)) "percent" = "8.00%" ∧
    format_value (Val.num 2500) "currency_billion" = "$2,500B" ∧
    format_value (Val.num 30) "ratio" = "30.00" ∧
    (∀ q : ℚ, ∃ n : ℤ, format_value (Val.num q) "ratio" = two_dec_string n ∧
      |q * 100 - (n : ℚ)| ≤ 1 / 2) ∧
    (∀ (v : Val) (t : String), ∃ s : String, format_value v t = s) := by
  refine ⟨fun t => rfl, ?_, ?_, ?_, ?_, fun v t => ⟨_, rfl⟩⟩
  · norm_num [format_value, fmtFixed2, two_dec_string, pad2, round_eq]
    decide
  · norm_num [format_value, fmtThousands0, groupThousands, round_eq]
    decide
  · norm_num [format_value, fmtFixed2, two_dec_string, pad2, round_eq]
    decide
  · intro q
    exact ⟨round (q * 100), rfl, abs_sub_round (q * 100)⟩

/-- C9: the fetch loop processes entities independently — processing one
record alone yields its own optional row and optional invalid-ticker
entry, and a batch splits around any record into the results of the
records before it, the record alone, and the records after it; a failing
record drops only itself and never changes another entity's computed
metrics. -/
theorem batch_isolation (f : ℚ → ℚ) (pre : List RawRecord) (r : RawRecord)
    (post : List RawRecord) :
    process_tickers f [r] =
      (((fetch_company_data f r).1).toList,
       if ((fetch_company_data f r).1).isNone then [r.ticker] else []) ∧
    process_tickers f (pre ++ r :: post) =
      ((process_tickers f pre).1 ++ (process_tickers f [r]).1 ++ (process_tickers f post).1,
       (process_tickers f pre).2 ++ (process_tickers f [r]).2 ++ (process_tickers f post).2) := by
  have hcons : ∀ (s : RawRecord) (rest : List RawRecord),
      process_tickers f (s :: rest) =
        (((fetch_company_data f s).1).toList ++ (process_tickers f rest).1,
         (if ((fetch_company_data f s).1).isNone then [s.ticker] else []) ++
           (process_tickers f rest).2) := by
    intro s rest
    show (match (fetch_company_data f s).1 with
      | some d => (d :: (process_tickers f rest).1, (process_tickers f rest).2)
      | none => ((process_tickers f rest).1, s.ticker :: (process_tickers f rest).2)) = _
    cases h : (fetch_company_data f s).1 with
    | some d => simp
    | none => simp
  have happ : ∀ (l1 l2 : List RawRecord),
      process_tickers f (l1 ++ l2) =
        ((process_tickers f l1).1 ++ (process_tickers f l2).1,
         (process_tickers f l1).2 ++ (process_tickers f l2).2) := by
    intro l1 l2
    induction l1 with
    | nil => simp [process_tickers]
    | cons s rest ih =>
      rw [List.cons_append, hcons s (rest ++ l2), hcons s rest, ih]
      simp
  constructor
  · rw [hcons r []]
    simp [process_tickers]
  · have hsplit : pre ++ r :: post = pre ++ [r] ++ post := by simp
    rw [hsplit, happ (pre ++ [r]) post, happ pre [r]]

/-- C10: a provider trailing P/E or market cap that is present but
exactly zero fails the truthiness test the code uses for presence, so the
metric stays the missing value and displays "N/A" rather than "0.00" or
a dollar amount. -/
theorem zero_field_treated_as_absent (f : ℚ → ℚ) (r : RawRecord) (d : CompanyData)
    (hd : (fetch_company_data f r).1 = some d) :
    (r.info.trailingPE = some 0 →
      d.trailingPE = Val.na ∧ format_value d.trailingPE "ratio" = "N/A") ∧
    (r.info.marketCap = some 0 →
      d.marketCapB = Val.na ∧ format_value d.marketCapB "currency_billion" = "N/A") := by
  obtain ⟨hv, hde⟩ := fetch_some_elim f r d hd
  subst hde
  constructor
  · intro h
    have hna : (build_data f r).trailingPE = Val.na := by
      show (if truthyQ r.info.trailingPE then Val.num ((r.info.trailingPE).getD 0)
        else Val.na) = Val.na
      rw [h]
      simp [truthyQ]
    exact ⟨hna, by rw [hna]; rfl⟩
  · intro h
    have hna : (build_data f r).marketCapB = Val.na := by
      show (if truthyQ r.info.marketCap then Val.num ((r.info.marketCap).getD 0 / 1000000000)
        else Val.na) = Val.na
      rw [h]
      simp [truthyQ]
    exact ⟨hna, by rw [hna]; rfl⟩

/-- C10 (witness): at the record whose trailing P/E and market cap are
both present but zero, both cells display "N/A", which differs from the
"0.00" and "$0B" that formatting a numeric zero would produce. -/
theorem zero_field_treated_as_absent_witness :
    ∃ d, (fetch_company_data (fun q => q) rZeroFields).1 = some d ∧
      format_value d.trailingPE "ratio" = "N/A" ∧
      format_value d.marketCapB "currency_billion" = "N/A" ∧
      ("N/A" : String) ≠ "0.00" ∧ ("N/A" : String) ≠ "$0B" := by
  have h := zero_field_treated_as_absent (fun q => q) rZeroFields _
    (by rw [fetch_eval _ _ (by decide)])
  exact ⟨build_data (fun q => q) rZeroFields, by rw [fetch_eval _ _ (by decide)],
    (h.1 rfl).2, (h.2 rfl).2, by decide, by decide⟩

end FinDash
